import Mathlib

/-!
Shallow embedding of the FlacLossless audio-graph code
(src/services/audioGraph.ts and the beat detector of
src/components/Visualizer.tsx), with theorems checking the
natural-language specification against it.

Conventions of the embedding:
* Web Audio nodes are identified by an inductive `Node` type; the node
  graph built by `AudioGraph.init` is recorded as the list of `connect`
  calls, in program order.
* An `AudioParam` keeps its current `value` and the list of scheduled
  `setTargetAtTime` events.  Assigning `param.value = x` updates `value`
  directly and schedules nothing; `setTargetAtTime` appends an event and
  leaves `value` untouched.
* Machine numbers are modelled as exact rationals.  The one
  transcendental operation, `Math.pow(10, db/20)` in `setPreAmpGain`, is
  modelled by passing the power function as an explicit parameter
  `pow10`, so every statement about that setter is quantified over it.
-/

/-- The nodes created by AudioGraph.init (src/services/audioGraph.ts).
`eqFilter i` is the i-th biquad of the 10-band EQ. -/
inductive Node
  | source
  | preAmp
  | eqFilter (i : ℕ)
  | vocal
  | panner
  | dryGain
  | reverb
  | reverbGain
  | analyser
  | outputGain
  | compressor
  | destination
deriving DecidableEq, Repr

/-- BiquadFilterNode.type values used by the code. -/
inductive FilterKind
  | peaking
  | lowshelf
  | highshelf
deriving DecidableEq, Repr

/-- One scheduled setTargetAtTime(target, startTime, timeConstant) event. -/
structure ParamEvent where
  target : ℚ
  startTime : ℚ
  timeConstant : ℚ
deriving DecidableEq, Repr

/-- A Web Audio AudioParam: current value plus scheduled smoothing events. -/
structure AudioParam where
  value : ℚ
  events : List ParamEvent
deriving DecidableEq, Repr

/-- Direct assignment param.value = v (no smoothing). -/
def AudioParam.setValue (p : AudioParam) (v : ℚ) : AudioParam :=
  { p with value := v }

/-- param.setTargetAtTime(target, t, tc): schedules a smoothed exponential
approach and leaves the current value unchanged. -/
def AudioParam.setTargetAtTime (p : AudioParam) (target t tc : ℚ) : AudioParam :=
  { p with events := p.events ++ [⟨target, t, tc⟩] }

/-- A BiquadFilterNode as configured by the code: type, frequency, Q and
its gain AudioParam. -/
structure BiquadFilter where
  kind : FilterKind
  freq : ℚ
  q : ℚ
  gain : AudioParam
deriving DecidableEq, Repr

/-- EQ_FREQUENCIES from src/constants.ts. -/
def EQ_FREQUENCIES : List ℚ :=
  [32, 64, 125, 250, 500, 1000, 2000, 4000, 8000, 16000]

/-- State of the AudioGraph singleton (src/services/audioGraph.ts).
`initialized` stands for `this.context !== null`; all nodes are created
together in `init`, so a single flag models all the null checks except
the EQ-band lookup, which is modelled by `eqFilters` being empty before
initialization. -/
structure GraphState where
  initialized : Bool
  currentTime : ℚ
  preAmpGain : AudioParam
  outputGain : AudioParam
  eqFilters : List BiquadFilter
  vocalFilter : BiquadFilter
  pan : AudioParam
  reverbGain : AudioParam
  dryGain : AudioParam
  compThreshold : AudioParam
  compKnee : AudioParam
  compRatioParam : AudioParam
  compAttack : AudioParam
  compRelease : AudioParam
  fftSize : ℕ
  smoothing : ℚ
  connections : List (Node × Node)
deriving DecidableEq, Repr

/-- The state before init: no context, no nodes, no connections. -/
def GraphState.empty : GraphState where
  initialized := false
  currentTime := 0
  preAmpGain := ⟨0, []⟩
  outputGain := ⟨0, []⟩
  eqFilters := []
  vocalFilter := ⟨FilterKind.peaking, 0, 0, ⟨0, []⟩⟩
  pan := ⟨0, []⟩
  reverbGain := ⟨0, []⟩
  dryGain := ⟨0, []⟩
  compThreshold := ⟨0, []⟩
  compKnee := ⟨0, []⟩
  compRatioParam := ⟨0, []⟩
  compAttack := ⟨0, []⟩
  compRelease := ⟨0, []⟩
  fftSize := 0
  smoothing := 0
  connections := []

/-- The running `previousNode.connect(filter); previousNode = filter`
loop of init: folds a chain of connections through `nodes` starting at
`start`, returning the connections made and the final previous node. -/
def connectSeq (start : Node) (nodes : List Node) : List (Node × Node) × Node :=
  nodes.foldl (fun acc f => (acc.1 ++ [(acc.2, f)], f)) ([], start)

/-- All connect calls made by AudioGraph.init, in program order. -/
def initConnections : List (Node × Node) :=
  let eqNodes := (List.range EQ_FREQUENCIES.length).map Node.eqFilter
  let chain := connectSeq Node.preAmp eqNodes
  (Node.source, Node.preAmp) :: chain.1 ++
    [(chain.2, Node.vocal), (Node.vocal, Node.panner),
     (Node.panner, Node.dryGain), (Node.panner, Node.reverb),
     (Node.reverb, Node.reverbGain),
     (Node.dryGain, Node.analyser), (Node.reverbGain, Node.analyser),
     (Node.analyser, Node.outputGain), (Node.outputGain, Node.compressor),
     (Node.compressor, Node.destination)]

namespace AudioGraph

/-- AudioGraph.init (src/services/audioGraph.ts lines 22-102).  Guarded by
`if (this.context) return;`.  Builds every node with the parameter values
the code writes, and records the connect calls. -/
def init (s : GraphState) : GraphState :=
  if s.initialized then s
  else
    { initialized := true
      currentTime := 0
      preAmpGain := ⟨1, []⟩
      outputGain := ⟨1, []⟩
      eqFilters :=
        EQ_FREQUENCIES.map fun freq =>
          ⟨FilterKind.peaking, freq, 14/10, ⟨0, []⟩⟩
      vocalFilter := ⟨FilterKind.peaking, 1500, 1/2, ⟨0, []⟩⟩
      pan := ⟨0, []⟩
      reverbGain := ⟨0, []⟩
      dryGain := ⟨1, []⟩
      compThreshold := ⟨-(1/2), []⟩
      compKnee := ⟨10, []⟩
      compRatioParam := ⟨20, []⟩
      compAttack := ⟨1/200, []⟩
      compRelease := ⟨1/10, []⟩
      fftSize := 4096
      smoothing := 17/20
      connections := initConnections }

/-- setPreAmpGain(db): converts dB to linear gain with Math.pow(10, db/20)
and retargets the pre-amp gain with time constant 0.1.  The float power
function is the explicit parameter `pow10`. -/
def setPreAmpGain (pow10 : ℚ → ℚ) (s : GraphState) (db : ℚ) : GraphState :=
  if s.initialized then
    { s with preAmpGain :=
        s.preAmpGain.setTargetAtTime (pow10 (db / 20)) s.currentTime (1/10) }
  else s

/-- setVolume(value): retargets the output gain with time constant 0.01. -/
def setVolume (s : GraphState) (value : ℚ) : GraphState :=
  if s.initialized then
    { s with outputGain :=
        s.outputGain.setTargetAtTime value s.currentTime (1/100) }
  else s

/-- setLimiter(enabled): writes compressor threshold.value and ratio.value
directly (no setTargetAtTime). -/
def setLimiter (s : GraphState) (enabled : Bool) : GraphState :=
  if s.initialized then
    { s with
        compThreshold := s.compThreshold.setValue (if enabled then -(1/2) else 0)
        compRatioParam := s.compRatioParam.setValue (if enabled then 20 else 1) }
  else s

/-- setEQGain(index, gainDb): guarded by the truthiness of
`this.eqFilters[index]`, so any index outside the array is a no-op;
otherwise retargets that band's gain with time constant 0.1. -/
def setEQGain (s : GraphState) (index : ℤ) (gainDb : ℚ) : GraphState :=
  if h : 0 ≤ index ∧ index.toNat < s.eqFilters.length then
    let f := s.eqFilters.get ⟨index.toNat, h.2⟩
    let f2 : BiquadFilter :=
      { f with gain := f.gain.setTargetAtTime gainDb s.currentTime (1/10) }
    { s with eqFilters := s.eqFilters.set index.toNat f2 }
  else s

/-- setVocalPresence(gainDb): retargets the presence filter's gain with
time constant 0.1. -/
def setVocalPresence (s : GraphState) (gainDb : ℚ) : GraphState :=
  if s.initialized then
    { s with vocalFilter :=
        { s.vocalFilter with gain :=
            s.vocalFilter.gain.setTargetAtTime gainDb s.currentTime (1/10) } }
  else s

/-- setStereoWidth(pan): clamps pan to [-1, 1] and retargets the panner
with time constant 0.1. -/
def setStereoWidth (s : GraphState) (pan : ℚ) : GraphState :=
  if s.initialized then
    { s with pan :=
        s.pan.setTargetAtTime (max (-1) (min 1 pan)) s.currentTime (1/10) }
  else s

/-- setReverbLevel(level): retargets the wet gain with time constant 0.1. -/
def setReverbLevel (s : GraphState) (level : ℚ) : GraphState :=
  if s.initialized then
    { s with reverbGain :=
        s.reverbGain.setTargetAtTime level s.currentTime (1/10) }
  else s

/-- One step of the band-partition loop of getAudioAnalysis: adds bin i
to the bass, mid or treble accumulator according to the two cutoffs. -/
def bandAccum (data : ℕ → ℕ) (bassCutoff midCutoff : ℕ)
    (acc : ℕ × ℕ × ℕ) (i : ℕ) : ℕ × ℕ × ℕ :=
  if i < bassCutoff then (acc.1 + data i, acc.2.1, acc.2.2)
  else if i < midCutoff then (acc.1, acc.2.1 + data i, acc.2.2)
  else (acc.1, acc.2.1, acc.2.2 + data i)

/-- The analyser's frequencyBinCount: half the fftSize. -/
def frequencyBinCount (s : GraphState) : ℕ := s.fftSize / 2

/-- bassCutoff of getAudioAnalysis: Math.floor(bufferLength * 0.05). -/
def bassCutoff (n : ℕ) : ℕ := n * 5 / 100

/-- midCutoff of getAudioAnalysis: Math.floor(bufferLength * 0.4). -/
def midCutoff (n : ℕ) : ℕ := n * 40 / 100

/-- getAudioAnalysis: returns null before init; otherwise reads the
byte-frequency snapshot `data` over frequencyBinCount = fftSize / 2 bins,
splits it at floor(N * 0.05) and floor(N * 0.4), and returns the three
band averages (bass, mid, treble). -/
def getAudioAnalysis (s : GraphState) (data : ℕ → ℕ) : Option (ℚ × ℚ × ℚ) :=
  if s.initialized then
    let n := frequencyBinCount s
    let b := bassCutoff n
    let m := midCutoff n
    let e := (List.range n).foldl (bandAccum data b m) (0, 0, 0)
    some ((e.1 : ℚ) / (b : ℚ),
          (e.2.1 : ℚ) / ((m : ℚ) - (b : ℚ)),
          (e.2.2 : ℚ) / ((n : ℚ) - (m : ℚ)))
  else none

/-- One sample of the synthetic impulse response: white noise shaped by
the squared linear-decay envelope (1 - i/length)^2. -/
def reverbSample (len : ℕ) (rand : ℕ → ℚ) (i : ℕ) : ℚ :=
  (rand i * 2 - 1) * (1 - (i : ℚ) / (len : ℚ))^2

/-- The `for (let i = 0; i < length; i++)` fill loop of
createReverbImpulse, producing the first k samples of one channel. -/
def reverbFill (len : ℕ) (rand : ℕ → ℚ) : ℕ → List ℚ
  | 0 => []
  | k + 1 => reverbFill len rand k ++ [reverbSample len rand k]

/-- Per-channel sample count of the impulse buffer: rate * duration,
truncated to an integer count by createBuffer. -/
def impulseLength (rate : ℕ) (duration : ℚ) : ℕ :=
  (⌊(rate : ℚ) * duration⌋).toNat

/-- createReverbImpulse(duration): length = sampleRate * duration
(truncated to an integer sample count by createBuffer), two channels
filled with independently drawn noise under the same decay envelope.
`randL` and `randR` are the successive Math.random() draws of the left
and right channel. -/
def createReverbImpulse (rate : ℕ) (duration : ℚ)
    (randL randR : ℕ → ℚ) : List ℚ × List ℚ :=
  let len := impulseLength rate duration
  (reverbFill len randL len, reverbFill len randR len)

/-- Mutable state of the Visualizer beat detector
(src/components/Visualizer.tsx): the 30-sample energy history and the
time of the last detected onset. -/
structure BeatState where
  energyHistory : List ℚ
  lastBeatTime : ℚ
deriving DecidableEq, Repr

/-- Number of low bins scanned by the beat detector (bassBins = 12; the
loop runs i = 1 .. bassBins - 1). -/
def bassBins : ℕ := 12

/-- The bassEnergy accumulation loop: sums dataArray bins 1 .. 11. -/
def bassEnergySum (data : ℕ → ℕ) : ℕ :=
  (List.range' 1 (bassBins - 1)).foldl (fun acc i => acc + data i) 0

/-- avgBass of renderFrame: the summed bins divided by bassBins (= 12). -/
def instantBass (data : ℕ → ℕ) : ℚ :=
  (bassEnergySum data : ℚ) / (bassBins : ℚ)

/-- energyHistory.push(x) followed by energyHistory.shift(). -/
def pushShift (hist : List ℚ) (x : ℚ) : List ℚ :=
  (hist ++ [x]).drop 1

/-- localAvgEnergy: reduce((a, b) => a + b, 0) / length. -/
def localAverage (hist : List ℚ) : ℚ :=
  hist.foldl (· + ·) 0 / (hist.length : ℚ)

/-- One renderFrame pass of the beat detector: updates the history, then
fires iff the instantaneous energy beats 1.3 times the local average,
exceeds the absolute floor 100, and more than 250 ms passed since the
last onset.  Returns the new state and whether an onset fired. -/
def stepBeat (st : AudioGraph.BeatState) (now : ℚ) (data : ℕ → ℕ) : BeatState × Bool :=
  let avgBass := instantBass data
  let hist := pushShift st.energyHistory avgBass
  let isBeat := avgBass > localAverage hist * (13/10) ∧
    avgBass > 100 ∧ now - st.lastBeatTime > 250
  if isBeat then (⟨hist, now⟩, true) else (⟨hist, st.lastBeatTime⟩, false)

/-- Runs the detector over a sequence of frames (time, frequency data)
and collects the times at which onsets fired. -/
def beatTimes (st : AudioGraph.BeatState) : List (ℚ × (ℕ → ℕ)) → List ℚ
  | [] => []
  | (t, d) :: rest =>
    let r := stepBeat st t d
    if r.2 then t :: beatTimes r.1 rest else beatTimes r.1 rest

end AudioGraph

/-- The processing chain as the spec lists it: source, pre-amp, the ten
EQ bands in order, presence filter, panner, the dry/wet split, merge
into the analyser, output gain, compressor, destination. -/
def specChainConnections : List (Node × Node) :=
  [(Node.source, Node.preAmp),
   (Node.preAmp, Node.eqFilter 0), (Node.eqFilter 0, Node.eqFilter 1),
   (Node.eqFilter 1, Node.eqFilter 2), (Node.eqFilter 2, Node.eqFilter 3),
   (Node.eqFilter 3, Node.eqFilter 4), (Node.eqFilter 4, Node.eqFilter 5),
   (Node.eqFilter 5, Node.eqFilter 6), (Node.eqFilter 6, Node.eqFilter 7),
   (Node.eqFilter 7, Node.eqFilter 8), (Node.eqFilter 8, Node.eqFilter 9),
   (Node.eqFilter 9, Node.vocal), (Node.vocal, Node.panner),
   (Node.panner, Node.dryGain), (Node.panner, Node.reverb),
   (Node.reverb, Node.reverbGain),
   (Node.dryGain, Node.analyser), (Node.reverbGain, Node.analyser),
   (Node.analyser, Node.outputGain), (Node.outputGain, Node.compressor),
   (Node.compressor, Node.destination)]

/-- Stated by the spec for comparison: the arithmetic mean of the eleven
bins 1 .. 11 scanned by the beat detector. -/
def specInstantBassMean (data : ℕ → ℕ) : ℚ :=
  (∑ i in Finset.Ico 1 AudioGraph.bassBins, (data i : ℚ)) / 11

/-- Property vocabulary for the spec's smoothing requirement: the setter
left the current value untouched and appended exactly one
setTargetAtTime event whose time constant lies in [0.01, 0.1]. -/
def SmoothedRetarget (before after : AudioParam) : Prop :=
  after.value = before.value ∧
  ∃ e : ParamEvent, after.events = before.events ++ [e] ∧
    1/100 ≤ e.timeConstant ∧ e.timeConstant ≤ 1/10

/-- C1: init on an uninitialized graph wires exactly the fixed chain of
the spec (source, pre-amp, ten peaking filters in ascending center
frequency, 1500 Hz presence filter, panner, dry/wet split, merge into
the analyser, output gain, compressor, destination) and makes no other
connections. -/
theorem init_wires_spec_chain (s : GraphState) (h : s.initialized = false) :
    (AudioGraph.init s).connections = specChainConnections ∧
    (AudioGraph.init s).eqFilters.map BiquadFilter.freq = EQ_FREQUENCIES ∧
    (∀ f ∈ (AudioGraph.init s).eqFilters, f.kind = FilterKind.peaking) ∧
    List.Chain' (· < ·) EQ_FREQUENCIES ∧
    (AudioGraph.init s).vocalFilter.freq = 1500 ∧
    (AudioGraph.init s).vocalFilter.kind = FilterKind.peaking := by
  refine ⟨?_, ?_, ?_, ?_, ?_, ?_⟩
  · simp only [AudioGraph.init, h, Bool.false_eq_true, if_false]
    rfl
  · simp only [AudioGraph.init, h, Bool.false_eq_true, if_false]
    rfl
  · simp only [AudioGraph.init, h, Bool.false_eq_true, if_false]
    intro f hf
    simp only [EQ_FREQUENCIES, List.map_cons, List.map_nil, List.mem_cons,
      List.mem_singleton, List.not_mem_nil, or_false] at hf
    rcases hf with hf | hf | hf | hf | hf | hf | hf | hf | hf | hf <;> subst hf <;> rfl
  · simp only [EQ_FREQUENCIES, List.chain'_cons, List.chain'_singleton, and_true]
    norm_num
  · simp [AudioGraph.init, h]
  · simp [AudioGraph.init, h]

theorem init_wires_spec_chain_witness :
    (AudioGraph.init GraphState.empty).connections = specChainConnections :=
  (init_wires_spec_chain GraphState.empty rfl).1

/-- C9: init is idempotent — on an already-built chain it is a no-op that
leaves the whole state (nodes, connections, parameters) unchanged, so a
second init never duplicates nodes. -/
theorem init_idempotent :
    (∀ s : GraphState, s.initialized = true → AudioGraph.init s = s) ∧
    (∀ s : GraphState, AudioGraph.init (AudioGraph.init s) = AudioGraph.init s) := by
  have h1 : ∀ s : GraphState, s.initialized = true → AudioGraph.init s = s := by
    intro s h
    simp [AudioGraph.init, h]
  refine ⟨h1, fun s => ?_⟩
  by_cases h : s.initialized
  · rw [h1 s h]
    exact h1 s h
  · apply h1
    simp [AudioGraph.init, h]

theorem init_idempotent_witness :
    AudioGraph.init (AudioGraph.init GraphState.empty) = AudioGraph.init GraphState.empty :=
  init_idempotent.1 (AudioGraph.init GraphState.empty) rfl

/-- C6: after initialization, setLimiter(true) writes threshold -0.5 and
ratio 20, setLimiter(false) writes threshold 0 and ratio 1, and neither
call touches knee, attack or release. -/
theorem setLimiter_exact_values (s : GraphState) (h : s.initialized = true) :
    (AudioGraph.setLimiter s true).compThreshold.value = -(1/2) ∧
    (AudioGraph.setLimiter s true).compRatioParam.value = 20 ∧
    (AudioGraph.setLimiter s false).compThreshold.value = 0 ∧
    (AudioGraph.setLimiter s false).compRatioParam.value = 1 ∧
    (∀ b, (AudioGraph.setLimiter s b).compKnee = s.compKnee ∧
      (AudioGraph.setLimiter s b).compAttack = s.compAttack ∧
      (AudioGraph.setLimiter s b).compRelease = s.compRelease) := by
  refine ⟨?_, ?_, ?_, ?_, fun b => ⟨?_, ?_, ?_⟩⟩ <;>
    simp [AudioGraph.setLimiter, AudioParam.setValue, h]

theorem setLimiter_exact_values_witness :
    (AudioGraph.setLimiter (AudioGraph.init GraphState.empty) true).compThreshold.value = -(1/2) :=
  (setLimiter_exact_values (AudioGraph.init GraphState.empty) rfl).1

/-- C10: after initialization setStereoWidth applies max(-1, min(1, p))
as the panner target: the scheduled target always lies in [-1, 1], it
equals p whenever p is already in range, and the setter schedules the
change rather than jumping the value. -/
theorem setStereoWidth_clamps (s : GraphState) (p : ℚ) (h : s.initialized = true) :
    (AudioGraph.setStereoWidth s p).pan.events =
      s.pan.events ++ [⟨max (-1) (min 1 p), s.currentTime, 1/10⟩] ∧
    (AudioGraph.setStereoWidth s p).pan.value = s.pan.value ∧
    -1 ≤ max (-1) (min 1 p) ∧ max (-1) (min 1 p) ≤ 1 ∧
    (-1 ≤ p → p ≤ 1 → max (-1) (min 1 p) = p) := by
  refine ⟨?_, ?_, le_max_left _ _, ?_, fun h1 h2 => ?_⟩
  · simp [AudioGraph.setStereoWidth, AudioParam.setTargetAtTime, h]
  · simp [AudioGraph.setStereoWidth, AudioParam.setTargetAtTime, h]
  · exact max_le (by norm_num) (min_le_left _ _)
  · rw [min_eq_right h2, max_eq_right h1]

theorem setStereoWidth_clamps_witness :
    (AudioGraph.setStereoWidth (AudioGraph.init GraphState.empty) 5).pan.events =
      (AudioGraph.init GraphState.empty).pan.events ++
        [⟨max (-1) (min 1 5), (AudioGraph.init GraphState.empty).currentTime, 1/10⟩] :=
  (setStereoWidth_clamps (AudioGraph.init GraphState.empty) 5 rfl).1

/-- C8 counterexample: calling setEQGain with the out-of-range index 10
on the freshly built chain leaves the state entirely unchanged — the
if-guard on eqFilters[index] silently ignores the call, it does not
throw. -/
theorem setEQGain_out_of_range_is_noop :
    AudioGraph.setEQGain (AudioGraph.init GraphState.empty) 10 5 =
      AudioGraph.init GraphState.empty := by
  rfl

/-- C8 amended: an index outside the filter array is silently ignored
(the call is a no-op), while an in-range index after initialization
retargets exactly that band's gain toward gainDb and leaves every other
band alone. -/
theorem setEQGain_range_behavior (s : GraphState) (idx : ℤ) (g : ℚ) (f : BiquadFilter) :
    (¬ (0 ≤ idx ∧ idx.toNat < s.eqFilters.length) → AudioGraph.setEQGain s idx g = s) ∧
    (0 ≤ idx → s.eqFilters.get? idx.toNat = some f →
      (AudioGraph.setEQGain s idx g).eqFilters.get? idx.toNat =
        some ⟨f.kind, f.freq, f.q, f.gain.setTargetAtTime g s.currentTime (1/10)⟩ ∧
      ∀ j, j ≠ idx.toNat →
        (AudioGraph.setEQGain s idx g).eqFilters.get? j = s.eqFilters.get? j) := by
  constructor
  · intro h
    rw [AudioGraph.setEQGain, dif_neg h]
  · intro h0 hget
    have hlt : idx.toNat < s.eqFilters.length := by
      rcases List.get?_eq_some.mp hget with ⟨hl, _⟩
      exact hl
    have hf : s.eqFilters.get ⟨idx.toNat, hlt⟩ = f := by
      rcases List.get?_eq_some.mp hget with ⟨hl, he⟩
      exact he
    have hf2 : s.eqFilters[idx.toNat] = f := by
      rw [← hf]
      simp [List.get_eq_getElem]
    constructor
    · rw [AudioGraph.setEQGain, dif_pos ⟨h0, hlt⟩]
      simp [List.getElem?_set, hlt, hget, hf2]
    · intro j hj
      rw [AudioGraph.setEQGain, dif_pos ⟨h0, hlt⟩]
      simp [List.getElem?_set, hj.symm]

theorem setEQGain_range_behavior_witness :
    AudioGraph.setEQGain (AudioGraph.init GraphState.empty) (-1) 5 =
      AudioGraph.init GraphState.empty :=
  (setEQGain_range_behavior (AudioGraph.init GraphState.empty) (-1) 5
      ⟨FilterKind.peaking, 32, 14/10, ⟨0, []⟩⟩).1 (by decide)

/-- C7 counterexample: setLimiter(false) on the freshly built chain
changes the compressor threshold value instantaneously (from -0.5 to 0)
and schedules no smoothing event at all, so not every parameter setter
is smoothed. -/
theorem setLimiter_is_instant_jump :
    (AudioGraph.setLimiter (AudioGraph.init GraphState.empty) false).compThreshold.value ≠
      (AudioGraph.init GraphState.empty).compThreshold.value ∧
    (AudioGraph.setLimiter (AudioGraph.init GraphState.empty) false).compThreshold.events =
      (AudioGraph.init GraphState.empty).compThreshold.events := by
  have h1 : (AudioGraph.setLimiter (AudioGraph.init GraphState.empty) false).compThreshold.value
      = (0 : ℚ) := rfl
  have h2 : (AudioGraph.init GraphState.empty).compThreshold.value = -(1/2 : ℚ) := rfl
  constructor
  · rw [h1, h2]
    norm_num
  · rfl

/-- C7 amended: every parameter setter except setLimiter (pre-amp gain,
output volume, band gains, presence gain, stereo width, reverb level)
applies its change as a single scheduled setTargetAtTime with time
constant in [0.01, 0.1] and never jumps the value; setLimiter instead
assigns threshold and ratio directly with no smoothing event. -/
theorem setters_smooth_except_limiter (pow10 : ℚ → ℚ) (s : GraphState)
    (h : s.initialized = true) (db v g pg w l : ℚ) (idx : ℤ) (f : BiquadFilter) :
    SmoothedRetarget s.preAmpGain (AudioGraph.setPreAmpGain pow10 s db).preAmpGain ∧
    SmoothedRetarget s.outputGain (AudioGraph.setVolume s v).outputGain ∧
    (0 ≤ idx → s.eqFilters.get? idx.toNat = some f →
      ∃ f2, (AudioGraph.setEQGain s idx g).eqFilters.get? idx.toNat = some f2 ∧
        SmoothedRetarget f.gain f2.gain) ∧
    SmoothedRetarget s.vocalFilter.gain (AudioGraph.setVocalPresence s pg).vocalFilter.gain ∧
    SmoothedRetarget s.pan (AudioGraph.setStereoWidth s w).pan ∧
    SmoothedRetarget s.reverbGain (AudioGraph.setReverbLevel s l).reverbGain ∧
    (∀ b, (AudioGraph.setLimiter s b).compThreshold.events = s.compThreshold.events ∧
      (AudioGraph.setLimiter s b).compRatioParam.events = s.compRatioParam.events) := by
  refine ⟨?_, ?_, ?_, ?_, ?_, ?_, ?_⟩
  · refine ⟨by simp [AudioGraph.setPreAmpGain, AudioParam.setTargetAtTime, h], ?_⟩
    refine ⟨⟨pow10 (db / 20), s.currentTime, 1/10⟩, ?_, by norm_num, by norm_num⟩
    simp [AudioGraph.setPreAmpGain, AudioParam.setTargetAtTime, h]
  · refine ⟨by simp [AudioGraph.setVolume, AudioParam.setTargetAtTime, h], ?_⟩
    refine ⟨⟨v, s.currentTime, 1/100⟩, ?_, by norm_num, by norm_num⟩
    simp [AudioGraph.setVolume, AudioParam.setTargetAtTime, h]
  · intro h0 hget
    refine ⟨⟨f.kind, f.freq, f.q, f.gain.setTargetAtTime g s.currentTime (1/10)⟩,
      ((setEQGain_range_behavior s idx g f).2 h0 hget).1, rfl, ?_⟩
    refine ⟨⟨g, s.currentTime, 1/10⟩, rfl, by norm_num, by norm_num⟩
  · refine ⟨by simp [AudioGraph.setVocalPresence, AudioParam.setTargetAtTime, h], ?_⟩
    refine ⟨⟨pg, s.currentTime, 1/10⟩, ?_, by norm_num, by norm_num⟩
    simp [AudioGraph.setVocalPresence, AudioParam.setTargetAtTime, h]
  · refine ⟨by simp [AudioGraph.setStereoWidth, AudioParam.setTargetAtTime, h], ?_⟩
    refine ⟨⟨max (-1) (min 1 w), s.currentTime, 1/10⟩, ?_, by norm_num, by norm_num⟩
    simp [AudioGraph.setStereoWidth, AudioParam.setTargetAtTime, h]
  · refine ⟨by simp [AudioGraph.setReverbLevel, AudioParam.setTargetAtTime, h], ?_⟩
    refine ⟨⟨l, s.currentTime, 1/10⟩, ?_, by norm_num, by norm_num⟩
    simp [AudioGraph.setReverbLevel, AudioParam.setTargetAtTime, h]
  · intro b
    constructor <;> simp [AudioGraph.setLimiter, AudioParam.setValue, h]

/-- Helper: the frame-loop sum over bins 1 .. 11, cast to the rationals,
as a Finset sum. -/
lemma bassEnergySum_eq_Ico_sum (data : ℕ → ℕ) :
    (AudioGraph.bassEnergySum data : ℚ) =
      ∑ i in Finset.Ico 1 AudioGraph.bassBins, (data i : ℚ) := by
  have hlist : List.range' 1 (AudioGraph.bassBins - 1) =
      [1, 2, 3, 4, 5, 6, 7, 8, 9, 10, 11] := by decide
  rw [AudioGraph.bassEnergySum, hlist, Finset.sum_Ico_eq_sum_range]
  simp [List.foldl, AudioGraph.bassBins, Finset.sum_range_succ, Finset.sum_range_zero]

/-- C3 counterexample: on the snapshot whose bins are all 12, the
detector's instantaneous energy is 11, not the arithmetic mean 12 of
bins 1 .. 11 — the loop sums eleven bins but divides by bassBins = 12. -/
theorem instantBass_is_not_the_mean :
    AudioGraph.instantBass (fun _ => 12) ≠ specInstantBassMean (fun _ => 12) := by
  have h1 : AudioGraph.bassEnergySum (fun _ => 12) = 132 := by decide
  have h2 : AudioGraph.instantBass (fun _ => 12) = 11 := by
    rw [AudioGraph.instantBass, h1, AudioGraph.bassBins]
    norm_num
  have h3 : specInstantBassMean (fun _ => 12) = 12 := by
    rw [specInstantBassMean]
    simp [Finset.sum_const, AudioGraph.bassBins, Nat.card_Ico]
  rw [h2, h3]
  norm_num

/-- C3 amended: the instantaneous sub-bass energy is the sum of bins
1 .. 11 (eleven bins, DC excluded) divided by 12, i.e. 11/12 of the
arithmetic mean of those bins, not the mean itself. -/
theorem instantBass_sum_div_twelve (data : ℕ → ℕ) :
    AudioGraph.instantBass data =
      (∑ i in Finset.Ico 1 AudioGraph.bassBins, (data i : ℚ)) / 12 ∧
    AudioGraph.instantBass data = specInstantBassMean data * (11 / 12) := by
  constructor
  · rw [AudioGraph.instantBass, bassEnergySum_eq_Ico_sum, AudioGraph.bassBins]
    norm_num
  · rw [AudioGraph.instantBass, bassEnergySum_eq_Ico_sum, specInstantBassMean,
      AudioGraph.bassBins]
    push_cast
    ring

/-- Helper: the onset flag of one frame holds exactly when the three
detector conditions hold. -/
lemma stepBeat_snd_iff (st : AudioGraph.BeatState) (now : ℚ) (data : ℕ → ℕ) :
    (AudioGraph.stepBeat st now data).2 = true ↔
      (AudioGraph.instantBass data >
          AudioGraph.localAverage
            (AudioGraph.pushShift st.energyHistory (AudioGraph.instantBass data)) * (13/10) ∧
        AudioGraph.instantBass data > 100 ∧
        now - st.lastBeatTime > 250) := by
  rw [AudioGraph.stepBeat]
  split_ifs with hc
  · simpa using hc
  · simpa using hc

/-- Helper: lastBeatTime is set to the frame time when an onset fires and
kept otherwise. -/
lemma stepBeat_lastBeatTime (st : AudioGraph.BeatState) (now : ℚ) (data : ℕ → ℕ) :
    ((AudioGraph.stepBeat st now data).2 = true →
      (AudioGraph.stepBeat st now data).1.lastBeatTime = now) ∧
    ((AudioGraph.stepBeat st now data).2 = false →
      (AudioGraph.stepBeat st now data).1.lastBeatTime = st.lastBeatTime) := by
  rw [AudioGraph.stepBeat]
  split_ifs <;> simp

/-- Helper: an onset can only fire strictly more than 250 ms after the
recorded last onset. -/
lemma stepBeat_fired_gap (st : AudioGraph.BeatState) (now : ℚ) (data : ℕ → ℕ)
    (h : (AudioGraph.stepBeat st now data).2 = true) :
    st.lastBeatTime + 250 < now := by
  rw [AudioGraph.stepBeat] at h
  split_ifs at h with hc
  · linarith [hc.2.2]

/-- Helper: every onset time fired on a run is more than 250 ms after the
previous one, linking back to the initial lastBeatTime. -/
lemma beatTimes_chain (st : AudioGraph.BeatState) (frames : List (ℚ × (ℕ → ℕ))) :
    List.Chain (fun a b => a + 250 < b) st.lastBeatTime
      (AudioGraph.beatTimes st frames) := by
  induction frames generalizing st with
  | nil => exact List.Chain.nil
  | cons fr rest ih =>
    obtain ⟨t, d⟩ := fr
    simp only [AudioGraph.beatTimes]
    by_cases hb : (AudioGraph.stepBeat st t d).2 = true
    · rw [if_pos hb]
      constructor
      · exact stepBeat_fired_gap st t d hb
      · have h2 := ih (AudioGraph.stepBeat st t d).1
        rwa [(stepBeat_lastBeatTime st t d).1 hb] at h2
    · rw [if_neg hb]
      have h2 := ih (AudioGraph.stepBeat st t d).1
      rwa [(stepBeat_lastBeatTime st t d).2 (by simpa using hb)] at h2

/-- C2: in each rendered frame an onset is detected iff the instant
energy beats 1.3 times the rolling local average, exceeds the absolute
floor 100, and more than 250 ms passed since the last onset; hence any
two consecutive detected onsets are always more than 250 ms apart. -/
theorem beat_onset_condition_and_refractory :
    (∀ (st : AudioGraph.BeatState) (now : ℚ) (data : ℕ → ℕ),
      (AudioGraph.stepBeat st now data).2 = true ↔
        (AudioGraph.instantBass data >
            AudioGraph.localAverage
              (AudioGraph.pushShift st.energyHistory (AudioGraph.instantBass data)) * (13/10) ∧
          AudioGraph.instantBass data > 100 ∧
          now - st.lastBeatTime > 250)) ∧
    (∀ (st : AudioGraph.BeatState) (frames : List (ℚ × (ℕ → ℕ))),
      List.Chain' (fun a b => a + 250 < b) (AudioGraph.beatTimes st frames)) ∧
    (∀ (st : AudioGraph.BeatState) (frames : List (ℚ × (ℕ → ℕ))),
      (AudioGraph.beatTimes st frames).Pairwise (fun a b => a + 250 < b)) := by
  have hchain : ∀ (st : AudioGraph.BeatState) (frames : List (ℚ × (ℕ → ℕ))),
      List.Chain' (fun a b => a + 250 < b) (AudioGraph.beatTimes st frames) :=
    fun st frames =>
      (show List.Chain' (fun a b => a + 250 < b)
        (st.lastBeatTime :: AudioGraph.beatTimes st frames) from
          beatTimes_chain st frames).tail
  haveI : IsTrans ℚ (fun a b => a + 250 < b) :=
    ⟨fun a b c hab hbc => by linarith⟩
  exact ⟨stepBeat_snd_iff, hchain,
    fun st frames => List.chain'_iff_pairwise.mp (hchain st frames)⟩

theorem setters_smooth_except_limiter_witness :
    SmoothedRetarget (AudioGraph.init GraphState.empty).preAmpGain
      (AudioGraph.setPreAmpGain (fun x => x) (AudioGraph.init GraphState.empty) 0).preAmpGain :=
  (setters_smooth_except_limiter (fun x => x) (AudioGraph.init GraphState.empty) rfl
      0 0 0 0 0 0 0 ⟨FilterKind.peaking, 32, 14/10, ⟨0, []⟩⟩).1

/-- Helper: the impulse fill loop produces exactly k samples. -/
lemma reverbFill_length (len : ℕ) (rand : ℕ → ℚ) :
    ∀ k, (AudioGraph.reverbFill len rand k).length = k := by
  intro k
  induction k with
  | zero => rfl
  | succ n ih =>
    rw [AudioGraph.reverbFill]
    simp [ih]

/-- Helper: sample i of the fill loop is the enveloped noise sample. -/
lemma reverbFill_get (len : ℕ) (rand : ℕ → ℚ) :
    ∀ k i, i < k →
      (AudioGraph.reverbFill len rand k).get? i =
        some (AudioGraph.reverbSample len rand i) := by
  intro k
  induction k with
  | zero => intro i h; exact absurd h (Nat.not_lt_zero i)
  | succ n ih =>
    intro i h
    rw [AudioGraph.reverbFill]
    rcases Nat.lt_succ_iff_lt_or_eq.mp h with h2 | h2
    · rw [List.get?_append]
      · exact ih i h2
      · rw [reverbFill_length]
        exact h2
    · subst h2
      rw [List.get?_append_right (by simp [reverbFill_length])]
      simp [reverbFill_length]

/-- C5: the impulse generator yields two channels of impulseLength =
rate * duration samples (that product when it is whole), sample i of
each channel being (rand * 2 - 1) * (1 - i/length)^2 with the left and
right channels drawing from independent random streams; for 2.5 s at
48000 Hz the length is 120000, the envelope is 1 at sample 0 and
(1/120000)^2 < 10^-9 at the last sample. -/
theorem createReverbImpulse_spec (rate : ℕ) (duration : ℚ) (randL randR : ℕ → ℚ) :
    (AudioGraph.createReverbImpulse rate duration randL randR).1.length =
        AudioGraph.impulseLength rate duration ∧
    (AudioGraph.createReverbImpulse rate duration randL randR).2.length =
        AudioGraph.impulseLength rate duration ∧
    (∀ n : ℕ, (rate : ℚ) * duration = (n : ℚ) →
      AudioGraph.impulseLength rate duration = n) ∧
    (∀ i, i < AudioGraph.impulseLength rate duration →
      (AudioGraph.createReverbImpulse rate duration randL randR).1.get? i =
          some ((randL i * 2 - 1) *
            (1 - (i : ℚ) / (AudioGraph.impulseLength rate duration : ℚ))^2) ∧
      (AudioGraph.createReverbImpulse rate duration randL randR).2.get? i =
          some ((randR i * 2 - 1) *
            (1 - (i : ℚ) / (AudioGraph.impulseLength rate duration : ℚ))^2)) ∧
    (∀ randR2, (AudioGraph.createReverbImpulse rate duration randL randR2).1 =
        (AudioGraph.createReverbImpulse rate duration randL randR).1) ∧
    (∀ randL2, (AudioGraph.createReverbImpulse rate duration randL2 randR).2 =
        (AudioGraph.createReverbImpulse rate duration randL randR).2) ∧
    AudioGraph.impulseLength 48000 (5/2) = 120000 ∧
    (∀ r : ℕ → ℚ, AudioGraph.reverbSample 120000 r 0 = r 0 * 2 - 1 ∧
      AudioGraph.reverbSample 120000 r 119999 =
        (r 119999 * 2 - 1) * (1/120000)^2) ∧
    ((1 : ℚ)/120000)^2 < 1/1000000000 := by
  refine ⟨?_, ?_, ?_, ?_, fun randR2 => rfl, fun randL2 => rfl, ?_, ?_, by norm_num⟩
  · exact reverbFill_length _ _ _
  · exact reverbFill_length _ _ _
  · intro n hn
    rw [AudioGraph.impulseLength, hn]
    simp
  · intro i hi
    constructor
    · simpa [AudioGraph.createReverbImpulse, AudioGraph.reverbSample] using
        reverbFill_get (AudioGraph.impulseLength rate duration) randL
          (AudioGraph.impulseLength rate duration) i hi
    · simpa [AudioGraph.createReverbImpulse, AudioGraph.reverbSample] using
        reverbFill_get (AudioGraph.impulseLength rate duration) randR
          (AudioGraph.impulseLength rate duration) i hi
  · rw [AudioGraph.impulseLength,
      show ((48000 : ℕ) : ℚ) * (5/2) = ((120000 : ℕ) : ℚ) by push_cast; norm_num]
    simp
  · intro r
    constructor
    · rw [AudioGraph.reverbSample]
      norm_num
    · rw [AudioGraph.reverbSample]
      norm_num

theorem createReverbImpulse_spec_witness :
    (AudioGraph.createReverbImpulse 4 (1/2) (fun _ => 1/2) (fun _ => 1/2)).1.get? 0 =
      some (((1:ℚ)/2 * 2 - 1) *
        (1 - ((0:ℕ) : ℚ) / (AudioGraph.impulseLength 4 (1/2) : ℚ))^2) :=
  ((createReverbImpulse_spec 4 (1/2) (fun _ => 1/2) (fun _ => 1/2)).2.2.2.1 0
    (by norm_num [AudioGraph.impulseLength])).1

/-- Helper: the band loop of getAudioAnalysis accumulates the three
filtered sums over the scanned range. -/
lemma bandAccum_foldl (data : ℕ → ℕ) (b m : ℕ) :
    ∀ (N : ℕ) (x y z : ℕ),
      (List.range N).foldl (AudioGraph.bandAccum data b m) (x, y, z) =
        (x + ∑ i in (Finset.range N).filter (fun i => i < b), data i,
         y + ∑ i in (Finset.range N).filter (fun i => ¬ i < b ∧ i < m), data i,
         z + ∑ i in (Finset.range N).filter (fun i => ¬ i < b ∧ ¬ i < m), data i) := by
  intro N
  induction N with
  | zero => intro x y z; simp
  | succ n ih =>
    intro x y z
    rw [List.range_succ, List.foldl_append, ih]
    simp only [List.foldl_cons, List.foldl_nil, AudioGraph.bandAccum]
    rw [Finset.range_succ, Finset.filter_insert, Finset.filter_insert,
      Finset.filter_insert]
    by_cases h1 : n < b
    · rw [if_pos h1]
      rw [if_pos h1, if_neg (by simp [h1]), if_neg (by simp [h1])]
      rw [Finset.sum_insert (by simp)]
      simp only [Prod.mk.injEq, true_and, and_true]
      ring
    · rw [if_neg h1]
      by_cases h2 : n < m
      · rw [if_pos h2]
        rw [if_neg (by simp [h1]), if_pos (by simp [h1, h2]), if_neg (by simp [h2])]
        rw [Finset.sum_insert (by simp)]
        simp only [Prod.mk.injEq, true_and, and_true]
        ring
      · rw [if_neg h2]
        rw [if_neg (by simp [h1]), if_neg (by simp [h2]), if_pos (by simp [h1, h2])]
        rw [Finset.sum_insert (by simp)]
        simp only [Prod.mk.injEq, true_and, and_true]
        ring

/-- Helper: the bass filter over the scanned range is the interval
of bins below the bass cutoff. -/
lemma filter_lt_eq_Ico (N b : ℕ) (hb : b ≤ N) :
    (Finset.range N).filter (fun i => i < b) = Finset.Ico 0 b := by
  ext i
  simp only [Finset.mem_filter, Finset.mem_range, Finset.mem_Ico]
  omega

/-- Helper: the mid filter over the scanned range is the interval
between the two cutoffs. -/
lemma filter_mid_eq_Ico (N b m : ℕ) (hm : m ≤ N) :
    (Finset.range N).filter (fun i => ¬ i < b ∧ i < m) = Finset.Ico b m := by
  ext i
  simp only [Finset.mem_filter, Finset.mem_range, Finset.mem_Ico, not_lt]
  omega

/-- Helper: the treble filter over the scanned range is the interval
from the mid cutoff to the end. -/
lemma filter_high_eq_Ico (N b m : ℕ) (hbm : b ≤ m) :
    (Finset.range N).filter (fun i => ¬ i < b ∧ ¬ i < m) = Finset.Ico m N := by
  ext i
  simp only [Finset.mem_filter, Finset.mem_range, Finset.mem_Ico, not_lt]
  omega

/-- Helper: the three band intervals tile the whole bin range. -/
lemma Ico_three_union (b m N : ℕ) (h1 : b ≤ m) (h2 : m ≤ N) :
    Finset.Ico 0 b ∪ Finset.Ico b m ∪ Finset.Ico m N = Finset.range N := by
  ext i
  simp only [Finset.mem_union, Finset.mem_Ico, Finset.mem_range]
  omega

/-- Helper: the bass and treble intervals do not meet. -/
lemma Ico_outer_disjoint (b m N : ℕ) (h1 : b ≤ m) :
    Disjoint (Finset.Ico 0 b) (Finset.Ico m N) := by
  rw [Finset.disjoint_left]
  intro a ha hb
  simp only [Finset.mem_Ico] at ha hb
  omega

/-- C4: getAudioAnalysis returns null exactly when the chain is not
initialized; otherwise the N analyser bins are partitioned into the
three contiguous, pairwise disjoint ranges [0, floor(0.05N)),
[floor(0.05N), floor(0.4N)) and [floor(0.4N), N) covering all N bins,
and the result is the arithmetic mean of each range (all three ranges
being nonempty for any realistic bin count N at least 20). -/
theorem getAudioAnalysis_partition (s : GraphState) (data : ℕ → ℕ)
    (N b m : ℕ) (hN : N = AudioGraph.frequencyBinCount s)
    (hb : b = AudioGraph.bassCutoff N) (hm : m = AudioGraph.midCutoff N) :
    (AudioGraph.getAudioAnalysis s data = none ↔ s.initialized = false) ∧
    (s.initialized = true →
      b ≤ m ∧ m ≤ N ∧
      Finset.Ico 0 b ∪ Finset.Ico b m ∪ Finset.Ico m N = Finset.range N ∧
      Disjoint (Finset.Ico 0 b) (Finset.Ico b m) ∧
      Disjoint (Finset.Ico b m) (Finset.Ico m N) ∧
      Disjoint (Finset.Ico 0 b) (Finset.Ico m N) ∧
      AudioGraph.getAudioAnalysis s data = some
        ((∑ i in Finset.Ico 0 b, (data i : ℚ)) / ((Finset.Ico 0 b).card : ℚ),
         (∑ i in Finset.Ico b m, (data i : ℚ)) / ((Finset.Ico b m).card : ℚ),
         (∑ i in Finset.Ico m N, (data i : ℚ)) / ((Finset.Ico m N).card : ℚ)) ∧
      (20 ≤ N → 0 < b ∧ b < m ∧ m < N)) := by
  subst hN hb hm
  have hbm : AudioGraph.bassCutoff (AudioGraph.frequencyBinCount s) ≤
      AudioGraph.midCutoff (AudioGraph.frequencyBinCount s) := by
    simp only [AudioGraph.bassCutoff, AudioGraph.midCutoff]
    omega
  have hmN : AudioGraph.midCutoff (AudioGraph.frequencyBinCount s) ≤
      AudioGraph.frequencyBinCount s := by
    simp only [AudioGraph.midCutoff]
    omega
  constructor
  · rw [AudioGraph.getAudioAnalysis]
    cases h : s.initialized <;> simp
  · intro h
    refine ⟨hbm, hmN, Ico_three_union _ _ _ hbm hmN,
      Finset.Ico_disjoint_Ico_consecutive _ _ _,
      Finset.Ico_disjoint_Ico_consecutive _ _ _,
      Ico_outer_disjoint _ _ _ hbm, ?_, ?_⟩
    · simp only [AudioGraph.getAudioAnalysis, h, if_true]
      rw [bandAccum_foldl]
      rw [filter_lt_eq_Ico _ _ (le_trans hbm hmN),
        filter_mid_eq_Ico _ _ _ hmN, filter_high_eq_Ico _ _ _ hbm]
      simp only [Nat.card_Ico, Nat.sub_zero, Nat.zero_add]
      rw [Nat.cast_sub hbm, Nat.cast_sub hmN]
      push_cast
      ring_nf
    · intro h20
      simp only [AudioGraph.bassCutoff, AudioGraph.midCutoff] at *
      omega

theorem getAudioAnalysis_partition_witness :
    AudioGraph.getAudioAnalysis (AudioGraph.init GraphState.empty) (fun _ => 0) =
        some
          ((∑ i in Finset.Ico 0 102, ((fun _ => (0 : ℕ)) i : ℚ)) /
              ((Finset.Ico (0:ℕ) 102).card : ℚ),
           (∑ i in Finset.Ico 102 819, ((fun _ => (0 : ℕ)) i : ℚ)) /
              ((Finset.Ico (102:ℕ) 819).card : ℚ),
           (∑ i in Finset.Ico 819 2048, ((fun _ => (0 : ℕ)) i : ℚ)) /
              ((Finset.Ico (819:ℕ) 2048).card : ℚ)) :=
  (((getAudioAnalysis_partition (AudioGraph.init GraphState.empty) (fun _ => 0)
    2048 102 819 rfl rfl rfl).2 rfl).2.2.2.2.2.2).1
